import Mathlib

set_option maxRecDepth 1000000

/-!
Verification development for the kobold ebook-library pipeline.

The definitions below are a shallow embedding of the Python sources:

* `src/kobold/task_queue.py`  — the durable task queue (`TaskQueue`),
* `src/kobold/worker.py`      — the worker dispatch loop,
* `src/kobold/utils/paths.py` — path templating and filename sanitization,
* `src/kobold/organizer.py`   — the library organizer,
* `src/kobold/services/organization_service.py` — the ORGANIZE stage.

Modelling conventions:

* Timestamps are integers (seconds).  `datetime.now(UTC)` is passed in
  explicitly as a `now` parameter, `timedelta(seconds = d)` is integer
  addition.
* The SQL store of `Task` rows is a `List Task`; `id` is the primary key,
  so row lookup by id is modelled by mapping an update function over the
  list (which touches exactly the rows whose id matches).
* Strings manipulated character-by-character by the Python code (template
  rendering, sanitization) are modelled as `List Char`.  Python's `\w`
  regex class and `str.strip()` whitespace are modelled over their ASCII
  fragments, which is exact for all inputs appearing in the claims.
* The filesystem is an oracle record `FS`: which paths exist, what
  `get_file_hash` returns at a path (`none` models a raised exception;
  the module `src/kobold/utils/hashing.py` itself is not among the
  sources, so the hash value is left abstract as this oracle), and
  whether `unlink` / `mkdir` / `shutil.move` raise `OSError`.
* Fields of the persistent models (`models.py` is not among the sources)
  follow the data-model section of the design document: task rows are
  created with `retry_count = 0`, and `TaskStatus` has the five states
  PENDING, PROCESSING, COMPLETED, FAILED, DEAD_LETTER.
-/

namespace Kobold

/-! ## Task model (`models.py` via `task_queue.py` usage) -/

inductive TaskStatus where
  | pending
  | processing
  | completed
  | failed
  | dead_letter
deriving DecidableEq, Repr

structure Task where
  id : Nat
  type : String
  status : TaskStatus
  retry_count : Nat
  max_retries : Nat
  created_at : Int
  started_at : Option Int
  completed_at : Option Int
  next_retry_at : Option Int
  error_message : Option String
deriving DecidableEq, Repr

/-- The stored task rows, in insertion (`rowid`) order. -/
abbrev QueueState := List Task

/-- Constant `TASK_MAX_RETRIES = 3` in `task_queue.py`. -/
def TASK_MAX_RETRIES : Nat := 3

/-- Constant `TASK_STALE_MINUTES = 15` in `task_queue.py`, in seconds. -/
def TASK_STALE_SECONDS : Int := 15 * 60

/-- Method `TaskQueue.add_task`: inserts a new PENDING task with
`max_retries = TASK_MAX_RETRIES`; `retry_count` starts at 0 and
`created_at` at the insertion time (model defaults). -/
def add_task (st : QueueState) (id : Nat) (ttype : String) (now : Int) : QueueState :=
  st ++ [{ id := id, type := ttype, status := TaskStatus.pending,
           retry_count := 0, max_retries := TASK_MAX_RETRIES,
           created_at := now, started_at := none, completed_at := none,
           next_retry_at := none, error_message := none }]

/-- The WHERE clause of `fetch_next_task`:
`status == PENDING AND (next_retry_at IS NULL OR next_retry_at <= now)`. -/
def eligible (now : Int) (t : Task) : Bool :=
  t.status == TaskStatus.pending &&
    (match t.next_retry_at with
     | none => true
     | some r => decide (r ≤ now))

/-- The ORDER BY key of `fetch_next_task`:
`next_retry_at ASC NULLS LAST, created_at ASC`, as a lexicographic
triple (null flag, retry time, creation time).  A row with NULL
`next_retry_at` gets flag 1 and therefore sorts after every non-NULL
row. -/
def fetch_key (t : Task) : Lex (Nat × Lex (Int × Int)) :=
  toLex (match t.next_retry_at with
  | none => (1, toLex (0, t.created_at))
  | some r => (0, toLex (r, t.created_at)))

/-- The claim-and-update part of `fetch_next_task`:
`task.status = PROCESSING; task.started_at = now`. -/
def mark_processing (now : Int) (t : Task) : Task :=
  { t with status := TaskStatus.processing, started_at := some now }

/-- Method `TaskQueue.fetch_next_task`: select the eligible row minimal under
`fetch_key` (ties broken by store order, as `.first()` on the ordered
query), mark it PROCESSING, and return the refreshed row together with
the updated store. -/
def fetch_next_task (st : QueueState) (now : Int) : Option Task × QueueState :=
  match List.argmin fetch_key (st.filter (eligible now)) with
  | none => (none, st)
  | some t =>
      (some (mark_processing now t),
       st.map (fun u => if u.id = t.id then mark_processing now u else u))

/-- Python truthiness of the optional `error` string in `complete_task`:
`if error:` is false for both `None` and the empty string. -/
def error_truthy (error : Option String) : Bool :=
  match error with
  | none => false
  | some e => e ≠ ""

/-- Row update of `TaskQueue.complete_task`: status is the explicit
`status` if given, else FAILED when a non-empty `error` is given, else
COMPLETED; a non-empty `error` is recorded; `completed_at = now`. -/
def apply_complete (error : Option String) (status : Option TaskStatus) (now : Int)
    (t : Task) : Task :=
  { t with
    status := match status with
      | some s => s
      | none => if error_truthy error then TaskStatus.failed else TaskStatus.completed,
    error_message := if error_truthy error then error else t.error_message,
    completed_at := some now }

/-- Method `TaskQueue.complete_task`: update the row with the given id; an
unknown id updates nothing. -/
def complete_task (st : QueueState) (id : Nat) (error : Option String)
    (status : Option TaskStatus) (now : Int) : QueueState :=
  st.map (fun t => if t.id = id then apply_complete error status now t else t)

/-- Row update of `TaskQueue.retry_task`: increment `retry_count`, record
the error, reset to PENDING, and schedule
`next_retry_at = now + delay`, defaulting to
`10 * 2 ^ (retry_count - 1)` seconds computed after the increment. -/
def apply_retry (error : String) (delay_seconds : Option Int) (now : Int)
    (t : Task) : Task :=
  let rc := t.retry_count + 1
  let d : Int := match delay_seconds with
    | some d => d
    | none => 10 * 2 ^ (rc - 1)
  { t with retry_count := rc, error_message := some error,
           status := TaskStatus.pending, next_retry_at := some (now + d) }

/-- Method `TaskQueue.retry_task`: update the row with the given id; an unknown
id updates nothing. -/
def retry_task (st : QueueState) (id : Nat) (error : String)
    (delay_seconds : Option Int) (now : Int) : QueueState :=
  st.map (fun t => if t.id = id then apply_retry error delay_seconds now t else t)

/-- The WHERE clause of `recover_stale_tasks`:
`status == PROCESSING AND started_at < now - 15 minutes` (a NULL
`started_at` satisfies no SQL comparison). -/
def is_stale (now : Int) (t : Task) : Bool :=
  t.status == TaskStatus.processing &&
    (match t.started_at with
     | none => false
     | some s => decide (s < now - TASK_STALE_SECONDS))

/-- Row update of `recover_stale_tasks`: back to PENDING, `started_at`
cleared, `retry_count` incremented, and the recovery tag recorded. -/
def apply_recover (t : Task) : Task :=
  { t with status := TaskStatus.pending, started_at := none,
           retry_count := t.retry_count + 1,
           error_message := some "Task recovered from stale state" }

/-- Method `TaskQueue.recover_stale_tasks`: reset every stale PROCESSING row and
return the updated store together with the number of rows reset. -/
def recover_stale_tasks (st : QueueState) (now : Int) : QueueState × Nat :=
  (st.map (fun t => if is_stale now t then apply_recover t else t),
   (st.filter (is_stale now)).length)

/-! ## Worker dispatch (`worker.py`) -/

/-- A Python exception as observed by `_process_task`: its class name and
its message. -/
structure PyExc where
  kind : String
  msg : String
deriving DecidableEq, Repr

/-- The format `f"{type(e).__name__}: {e}"` in `_process_task`. -/
def format_error (e : PyExc) : String := e.kind ++ ": " ++ e.msg

/-- Function `_handle_task_failure`: retry while `retry_count < max_retries`,
otherwise complete with terminal status DEAD_LETTER. -/
def handle_task_failure (st : QueueState) (t : Task) (error_msg : String)
    (now : Int) : QueueState :=
  if t.retry_count < t.max_retries then
    retry_task st t.id error_msg none now
  else
    complete_task st t.id (some error_msg) (some TaskStatus.dead_letter) now

/-- The outcome of `processor.process(task.payload)`. -/
abbrev ProcessorOutcome := Except PyExc Unit

/-- Function `_process_task`: unknown task types are completed FAILED; a normal
return is completed COMPLETED; a raised exception is formatted and routed
through `_handle_task_failure`. -/
def process_task (st : QueueState) (t : Task) (registered : Bool)
    (outcome : ProcessorOutcome) (now : Int) : QueueState :=
  if !registered then
    complete_task st t.id (some ("Unknown task type: " ++ t.type))
      (some TaskStatus.failed) now
  else
    match outcome with
    | Except.ok _ => complete_task st t.id none none now
    | Except.error e => handle_task_failure st t (format_error e) now

/-! ## Path templating and sanitization (`utils/paths.py`)

Strings are modelled as `List Char`; path values (`pathlib.Path`) as
`List Str` of components, since `Path` normalizes away empty and `"."`
components and compares by component list. -/

/-- A Python string, character by character. -/
abbrev Str := List Char

/-- Opening brace, written by code point to keep it out of literals. -/
def lbrace : Char := Char.ofNat 123

/-- Closing brace, written by code point. -/
def rbrace : Char := Char.ofNat 125

/-- The character class of `INVALID_CHARS_PATTERN`:
`[<>:"/\\|?*\x00-\x1f]`. -/
def is_invalid_char (c : Char) : Bool :=
  c == '<' || c == '>' || c == ':' || c == '"' || c == '/' || c == '\\' ||
  c == '|' || c == '?' || c == '*' || decide (c.toNat ≤ 31)

/-- The substitution `INVALID_CHARS_PATTERN.sub("_", s)`: each invalid character becomes
an underscore. -/
def replace_invalid (s : Str) : Str :=
  s.map (fun c => if is_invalid_char c then '_' else c)

/-- The strip set of `sanitized.strip(". \t\n\r")`. -/
def dot_strip_set : List Char := ['.', ' ', '\t', '\n', '\r']

/-- Python's `str.strip(chars)`: drop characters of the set from both
ends. -/
def py_strip (set : List Char) (s : Str) : Str :=
  (((s.dropWhile (fun c => set.contains c)).reverse.dropWhile
      (fun c => set.contains c))).reverse

/-- Constant `MAX_SEGMENT_LENGTH = 200`. -/
def MAX_SEGMENT_LENGTH : Nat := 200

/-- Index of the last `'.'` in a name, if any. -/
def last_dot_idx (s : Str) : Option Nat :=
  ((s.enum.filter (fun p => p.2 == '.')).getLast?).map (fun p => p.1)

/-- Property `pathlib.PurePath.stem` of a single-component name: the part before
the last dot, unless that dot is the first or last character. -/
def py_stem (s : Str) : Str :=
  match last_dot_idx s with
  | none => s
  | some i => if 0 < i ∧ i + 1 < s.length then s.take i else s

/-- Property `pathlib.PurePath.suffix` of a single-component name. -/
def py_suffix (s : Str) : Str :=
  match last_dot_idx s with
  | none => []
  | some i => if 0 < i ∧ i + 1 < s.length then s.drop i else []

/-- Python's `s[:k]` for an `int` bound `k`: a negative bound counts from
the end. -/
def py_slice_to (s : Str) (k : Int) : Str :=
  if 0 ≤ k then s.take k.toNat else s.take (s.length - (-k).toNat)

/-- Function `sanitize_filename` from `utils/paths.py`: replace invalid
characters, strip `". \t\n\r"` from both ends, and truncate an overlong
result to `MAX_SEGMENT_LENGTH` preserving the extension suffix
(`stem[:200 - len(suffix)] + suffix`). -/
def sanitize_filename (filename : Str) : Str :=
  let sanitized := py_strip dot_strip_set (replace_invalid filename)
  if sanitized.length > MAX_SEGMENT_LENGTH then
    py_slice_to (py_stem sanitized)
        ((MAX_SEGMENT_LENGTH : Int) - (py_suffix sanitized).length)
      ++ py_suffix sanitized
  else
    sanitized

/-- The ASCII fragment of the regex class `\w` used by
`TEMPLATE_VAR_PATTERN`. -/
def is_word_char (c : Char) : Bool := c.isAlphanum || c == '_'

/-- Fuel-indexed scanner behind `find_vars`; the fuel is an upper bound
on the remaining length, so it never runs out on the initial call. -/
def find_vars_go : Nat → Str → List Str
  | 0, _ => []
  | _ + 1, [] => []
  | fuel + 1, c :: rest =>
      if c = lbrace then
        let w := rest.takeWhile is_word_char
        if w ≠ [] ∧ (rest.drop w.length).head? = some rbrace then
          w :: find_vars_go fuel (rest.drop (w.length + 1))
        else
          find_vars_go fuel rest
      else
        find_vars_go fuel rest

/-- The variable names matched by `TEMPLATE_VAR_PATTERN.finditer`, in
order: every non-overlapping occurrence of an opening brace, one or more
word characters, and a closing brace. -/
def find_vars (s : Str) : List Str := find_vars_go s.length s

/-- Fuel-indexed worker behind `replace_all`; the fuel bounds the
remaining length. -/
def replace_all_go (pat repl : Str) : Nat → Str → Str
  | 0, s => s
  | _ + 1, [] => []
  | fuel + 1, c :: rest =>
      if pat ≠ [] ∧ pat.isPrefixOf (c :: rest) then
        repl ++ replace_all_go pat repl fuel ((c :: rest).drop pat.length)
      else
        c :: replace_all_go pat repl fuel rest

/-- Python's `str.replace(pat, repl)` with a non-empty pattern:
left-to-right, non-overlapping.  An empty pattern returns the string
unchanged (the patterns used are brace-delimited, hence non-empty). -/
def replace_all (pat repl s : Str) : Str := replace_all_go pat repl s.length s

/-- The metadata dictionary of `PathTemplate.render`: an association
list from variable names to `str | None` values; `dict.get` returns
`None` both for a missing key and for a stored `None`. -/
abbrev Metadata := List (String × Option Str)

/-- Lookup `metadata.get(var_name)`. -/
def meta_get (meta : Metadata) (var : Str) : Option Str :=
  match meta.find? (fun p => p.1.toList == var) with
  | some p => p.2
  | none => none

/-- The placeholder text `"{var}"` that `render` replaces. -/
def placeholder (var : Str) : Str := lbrace :: var ++ [rbrace]

/-- The substitution loop of `PathTemplate.render`: for each matched
variable of the pattern in order, replace every occurrence of its
placeholder in the accumulated result with the sanitized value, or with
the empty string when the value is missing or `None`. -/
def substitute_all (pattern : Str) (meta : Metadata) : Str :=
  (find_vars pattern).foldl
    (fun result var =>
      let sanitized := match meta_get meta var with
        | some v => sanitize_filename v
        | none => []
      replace_all (placeholder var) sanitized result)
    pattern

/-- The default whitespace of Python's `str.strip()` (ASCII fragment). -/
def py_whitespace : List Char := [' ', '\t', '\n', '\r', '\x0b', '\x0c']

/-- Python `s.strip()` with no arguments. -/
def py_strip_ws (s : Str) : Str := py_strip py_whitespace s

/-- The comprehension `[s.strip() for s in result.split("/") if s.strip()]`. -/
def render_segments (result : Str) : List Str :=
  ((result.splitOn '/').map py_strip_ws).filter (fun s => s ≠ [])

/-- Method `PathTemplate.render` as a component list: substitute, split on
`'/'`, strip and drop empty segments, and build the `Path`, which
normalizes away `"."` components (`Path()` is the empty component
list). -/
def render (pattern : Str) (meta : Metadata) : List Str :=
  (render_segments (substitute_all pattern meta)).filter (fun s => s ≠ ['.'])

/-- Rendering `str()` of a `Path` given by components: `"."` for the empty path,
else the components joined with `'/'`. -/
def path_str (parts : List Str) : Str :=
  if parts = [] then ['.'] else (parts.intersperse ['/']).flatten

/-! ## Book, configuration and filesystem models -/

/-- The fields of the persistent `Book` entity read by the organizer and
the ORGANIZE stage (the model module is not among the sources; fields
follow the data-model section of the design document).
`publication_year` stands for `book.publication_date.year`, `file_path`
and `kepub_path` are stored as path component lists. -/
structure Book where
  id : Nat
  title : Str
  author : Option Str
  series : Option Str
  series_index : Option Int
  language : Option Str
  genre : Option Str
  publication_year : Option Int
  file_path : List Str
  file_hash : String
  kepub_path : Option (List Str)
deriving DecidableEq, Repr

/-- Modelled from the spec: the configuration options consumed by the
organizer (`config.py` is not among the sources).  `watch_dirs_list` is
the list of watch directories; its first entry is the organizer's
root. -/
structure Settings where
  ORGANIZE_LIBRARY : Bool
  ORGANIZE_TEMPLATE : Str
  watch_dirs_list : List (List Str)

/-- Filesystem oracle: which paths exist, what `get_file_hash` returns
at a path (`none` models a raised exception; `utils/hashing.py` is not
among the sources, so the digest is abstract), and which operations
raise `OSError`. -/
structure FS where
  files : List Str → Bool
  hash_result : List Str → Option String
  unlink_fails : List Str → Bool
  mkdir_fails : List Str → Bool
  move_fails : List Str → List Str → Bool

/-- Effect of a successful `Path.unlink()`. -/
def FS.unlink (fs : FS) (p : List Str) : FS :=
  { fs with
    files := fun q => if q = p then false else fs.files q,
    hash_result := fun q => if q = p then none else fs.hash_result q }

/-- Effect of a successful `shutil.move(src, dst)`. -/
def FS.move (fs : FS) (src dst : List Str) : FS :=
  { fs with
    files := fun q => if q = dst then true else if q = src then false else fs.files q,
    hash_result := fun q =>
      if q = dst then fs.hash_result src
      else if q = src then none else fs.hash_result q }

/-! ## Library organizer (`organizer.py`) -/

/-- Python's `a or b` for an optional string: `b` when `a` is `None` or
empty. -/
def py_or_str (v : Option Str) (d : Str) : Str :=
  match v with
  | none => d
  | some s => if s = [] then d else s

/-- Python's `f"{n:02d}"`: zero-pad to two characters (a negative value
already has at least two). -/
def format_02d (n : Int) : Str :=
  let s := (toString n).toList
  if 2 ≤ s.length then s else '0' :: s

/-- The metadata dictionary built by `get_organize_path`.  Note that
`series_index` and `year` are guarded by Python truthiness:
`series_index = 0` and a missing date both yield `None`. -/
def organize_metadata (book : Book) : Metadata :=
  [("author", some (py_or_str book.author "Unknown Author".toList)),
   ("title", some book.title),
   ("series", book.series),
   ("series_index",
     match book.series_index with
     | some n => if n ≠ 0 then some (format_02d n) else none
     | none => none),
   ("language", book.language),
   ("genre", book.genre),
   ("year", book.publication_year.map (fun y => (toString y).toList))]

/-- Property `PurePath.name`: the final component (empty for the empty path). -/
def path_name (p : List Str) : Str := (p.getLast?).getD []

/-- Appending a sanitized filename to a `Path`: `pathlib` ignores an
empty component (a sanitized name contains no `'/'` and, being stripped
of outer dots, is never `"."` or `".."`). -/
def str_to_parts (s : Str) : List Str := if s = [] then [] else [s]

/-- Method `LibraryOrganizer.get_organize_path`: the pair
`(current_path, base_dir / render(template, metadata) / sanitized name)`
with `base_dir` the first watch directory, defaulting to `/books`. -/
def get_organize_path (settings : Settings) (book : Book) : List Str × List Str :=
  let new_dir := render settings.ORGANIZE_TEMPLATE (organize_metadata book)
  let filename := sanitize_filename (path_name book.file_path)
  let base_dir := (settings.watch_dirs_list.head?).getD ["books".toList]
  (book.file_path, base_dir ++ new_dir ++ str_to_parts filename)

/-- The candidate `parent / f"{stem}_{counter}{suffix}"` tried by
`_generate_unique_path`. -/
def unique_candidate (p : List Str) (n : Nat) : List Str :=
  p.dropLast ++
    [py_stem (path_name p) ++ '_' :: (toString n).toList ++ py_suffix (path_name p)]

/-- Function `_generate_unique_path`: the first candidate for counter 1..1000
that does not exist; `OSError` once the counter passes 1000. -/
def generate_unique_path (fs : FS) (p : List Str) : Except String (List Str) :=
  match (List.range 1000).findSome?
      (fun i =>
        let c := unique_candidate p (i + 1)
        if fs.files c then none else some c) with
  | some c => Except.ok c
  | none => Except.error "Could not generate unique path"

/-- Result of the `if new_path.exists():` block of `organize_book`:
either the dedup branch returned early, or the move continues to some
(possibly uniquified) target. -/
inductive CollisionOutcome where
  | dedup
  | rename (target : List Str)
deriving DecidableEq, Repr

/-- The `if new_path.exists():` block of `organize_book`: when the
target's hash matches `book.file_hash` and deleting the source succeeds,
dedup; when the hash mismatches, hashing raises, or the delete raises
(the re-raised `OSError` is swallowed by the enclosing
`except Exception`), fall through to `_generate_unique_path`; when the
target does not exist, keep it. -/
def resolve_collision (fs : FS) (book : Book) (original_path target : List Str) :
    Except String CollisionOutcome :=
  if fs.files target then
    match fs.hash_result target with
    | some h =>
        if h = book.file_hash then
          if fs.unlink_fails original_path then
            (generate_unique_path fs target).map CollisionOutcome.rename
          else
            Except.ok CollisionOutcome.dedup
        else
          (generate_unique_path fs target).map CollisionOutcome.rename
    | none => (generate_unique_path fs target).map CollisionOutcome.rename
  else
    Except.ok (CollisionOutcome.rename target)

/-- The kepub block at the end of `organize_book`: move the derived file
alongside the primary one with the same sanitize/unique-sibling
discipline; a failed move is logged, not raised (but a unique-path
exhaustion propagates, being outside the `try`). -/
def move_kepub (fs : FS) (book : Book) (target_parent : List Str) :
    Except String (Book × FS) :=
  match book.kepub_path with
  | none => Except.ok (book, fs)
  | some kp =>
      if fs.files kp then do
        let kfn := sanitize_filename (path_name kp)
        let knew := target_parent ++ str_to_parts kfn
        let knew ← if fs.files knew then generate_unique_path fs knew else Except.ok knew
        if fs.move_fails kp knew then
          Except.ok (book, fs)
        else
          Except.ok ({ book with kepub_path := some knew }, fs.move kp knew)
      else
        Except.ok (book, fs)

/-- Method `LibraryOrganizer.organize_book`: returns the new path (`none` when
skipped) together with the updated book and filesystem; `Except.error`
models a raised `OSError`. -/
def organize_book (settings : Settings) (fs : FS) (book : Book) :
    Except String (Option (List Str) × Book × FS) :=
  if !settings.ORGANIZE_LIBRARY then Except.ok (none, book, fs) else
  let op := get_organize_path settings book
  if op.2 = op.1 then Except.ok (none, book, fs) else do
  let outcome ← resolve_collision fs book op.1 op.2
  match outcome with
  | CollisionOutcome.dedup => Except.ok (some op.2, book, fs.unlink op.1)
  | CollisionOutcome.rename target =>
      if fs.mkdir_fails target.dropLast then Except.error "Failed to create directory"
      else if fs.move_fails op.1 target then Except.error "Failed to move book"
      else do
        let bookfs ← move_kepub (fs.move op.1 target) book target.dropLast
        Except.ok (some target, bookfs.1, bookfs.2)

/-! ## ORGANIZE stage (`services/organization_service.py`) -/

/-- The exceptions `process_job` can raise. -/
inductive JobError where
  | file_not_found (msg : String)
  | os_error (msg : String)
deriving DecidableEq, Repr

/-- The message `f"Source file {current_path} not found"`. -/
def fnf_msg (p : List Str) : String :=
  "Source file " ++ String.mk (path_str p) ++ " not found"

/-- Method `OrganizationJobService.process_job`: no-op when organization is
disabled, the payload has no book id, or the book is unknown; when the
source file is missing, recover iff the expected target exists with a
matching hash (committing `file_path = expected_path`) and raise
`FileNotFoundError` otherwise; else run the organizer and commit the
returned path. -/
def process_job (settings : Settings) (fs : FS) (store : List Book)
    (book_id : Option Nat) : Except JobError (FS × List Book) :=
  if !settings.ORGANIZE_LIBRARY then Except.ok (fs, store) else
  match book_id with
  | none => Except.ok (fs, store)
  | some bid =>
      match store.find? (fun b => b.id == bid) with
      | none => Except.ok (fs, store)
      | some book =>
          let op := get_organize_path settings book
          if !fs.files op.1 then
            if fs.files op.2 then
              match fs.hash_result op.2 with
              | some h =>
                  if h = book.file_hash then
                    Except.ok (fs,
                      store.map (fun b =>
                        if b.id = bid then { b with file_path := op.2 } else b))
                  else
                    Except.error (JobError.file_not_found (fnf_msg op.1))
              | none => Except.error (JobError.file_not_found (fnf_msg op.1))
            else
              Except.error (JobError.file_not_found (fnf_msg op.1))
          else
            match organize_book settings fs book with
            | Except.error e => Except.error (JobError.os_error e)
            | Except.ok (newp, book2, fs2) =>
                match newp with
                | some np =>
                    Except.ok (fs2,
                      store.map (fun b =>
                        if b.id = bid then { book2 with file_path := np } else b))
                | none => Except.ok (fs2, store)

/-! ## Concrete instances used by the claim theorems -/

/-- A fresh PENDING task: no scheduled retry, created first. -/
def task_fresh : Task :=
  { id := 0, type := "INGEST", status := TaskStatus.pending, retry_count := 0,
    max_retries := 3, created_at := 0, started_at := none, completed_at := none,
    next_retry_at := none, error_message := none }

/-- A retried PENDING task: `next_retry_at = 5`, created second. -/
def task_retried : Task :=
  { id := 1, type := "INGEST", status := TaskStatus.pending, retry_count := 1,
    max_retries := 3, created_at := 1, started_at := none, completed_at := none,
    next_retry_at := some 5, error_message := none }

/-- The ordering asserted by the claim about `fetch_next_task`:
`next_retry_at` ascending with nulls FIRST, tiebreak `created_at`
ascending (to be compared with the implementation's `fetch_key`). -/
def claim_key_nulls_first (t : Task) : Lex (Nat × Lex (Int × Int)) :=
  toLex (match t.next_retry_at with
  | none => (0, toLex (0, t.created_at))
  | some r => (1, toLex (r, t.created_at)))

/-- Fallback task used to eliminate an `Option`. -/
def task_dummy : Task :=
  { id := 999, type := "", status := TaskStatus.pending, retry_count := 0,
    max_retries := 0, created_at := 0, started_at := none, completed_at := none,
    next_retry_at := none, error_message := none }

/-- A PROCESSING task claimed two hours before the recovery sweep. -/
def task_stale : Task :=
  { id := 4, type := "ORGANIZE", status := TaskStatus.processing, retry_count := 0,
    max_retries := 3, created_at := 0, started_at := some 0, completed_at := none,
    next_retry_at := none, error_message := none }

/-- The fresh task as claimed by the worker at time 1. -/
def task_claimed : Task := mark_processing 1 task_fresh

/-- Queue trace: a single enqueued task. -/
def c2_s0 : QueueState := add_task [] 0 "INGEST" 0

/-- Trace step: the task claimed at time 1. -/
def c2_s1 : QueueState := (fetch_next_task c2_s0 1).2

/-- Trace step: failed and retried at time 2 with `retry_count` 0 < 3. -/
def c2_s2 : QueueState := retry_task c2_s1 0 "ValueError: boom" none 2

/-- Trace step: claimed again at time 20 (past `next_retry_at` 12). -/
def c2_s3 : QueueState := (fetch_next_task c2_s2 20).2

/-- Trace step: retried at time 21 with `retry_count` 1 < 3. -/
def c2_s4 : QueueState := retry_task c2_s3 0 "ValueError: boom" none 21

/-- Trace step: claimed at time 50 (past `next_retry_at` 41). -/
def c2_s5 : QueueState := (fetch_next_task c2_s4 50).2

/-- Trace step: retried at time 51 with `retry_count` 2 < 3. -/
def c2_s6 : QueueState := retry_task c2_s5 0 "ValueError: boom" none 51

/-- Trace step: claimed at time 100 (past `next_retry_at` 91). -/
def c2_s7 : QueueState := (fetch_next_task c2_s6 100).2

/-- Trace step: swept by stale recovery at time 2000 (claim time 100 is older
than the 900-second cutoff), which increments `retry_count` to 4 while
`max_retries` is 3. -/
def c2_s8 : QueueState := (recover_stale_tasks c2_s7 2000).1

/-- The recovered task claimed once more, at time 3000. -/
def c3_fetch : Option Task × QueueState := fetch_next_task c2_s8 3000

/-- The worker observes a processor failure on that claimed task, whose
`retry_count` 4 now exceeds `max_retries` 3. -/
def c3_after : QueueState :=
  process_task c3_fetch.2 (c3_fetch.1.getD task_dummy) true
    (Except.error { kind := "ValueError", msg := "boom" }) 3001

/-- The organize template `"{author}"`, braces by code point. -/
def template_author : Str := [lbrace] ++ "author".toList ++ [rbrace]

/-- The template of the path-rendering scenario,
`"{author}/{series}/{title}"`. -/
def template_ast : Str :=
  [lbrace] ++ "author".toList ++ [rbrace, '/', lbrace] ++ "series".toList ++
    [rbrace, '/', lbrace] ++ "title".toList ++ [rbrace]

/-- Metadata with `author = "A"`, `series = None`, `title = "T"`. -/
def meta_a_t : Metadata :=
  [("author", some ['A']), ("series", none), ("title", some ['T'])]

/-- Metadata with every value `None`. -/
def meta_all_null : Metadata :=
  [("author", none), ("series", none), ("title", none)]

/-- A 201-character name, `199 × 'a'`, a space, and `'b'`: sanitization
truncates it to 200 characters ending in the space. -/
def c9_long : Str := List.replicate 199 'a' ++ [' ', 'b']

/-- A book whose `series_index` is 0. -/
def book_index0 : Book :=
  { id := 10, title := "T".toList, author := some "A".toList, series := some "S".toList,
    series_index := some 0, language := none, genre := none, publication_year := none,
    file_path := ["in".toList, "a.epub".toList], file_hash := "H", kepub_path := none }

/-- A book whose `series_index` is 5. -/
def book_index5 : Book := { book_index0 with series_index := some 5 }

/-- Organizer settings: organization on, template `"{author}"`, one
watch directory `lib`. -/
def settings_ex : Settings :=
  { ORGANIZE_LIBRARY := true, ORGANIZE_TEMPLATE := template_author,
    watch_dirs_list := [["lib".toList]] }

/-- A book at `in/a.epub` with hash `"H"` and author `"A"`; its organize
target under `settings_ex` is `lib/A/a.epub`. -/
def book_ex : Book :=
  { id := 1, title := "T".toList, author := some "A".toList, series := none,
    series_index := none, language := none, genre := none, publication_year := none,
    file_path := ["in".toList, "a.epub".toList], file_hash := "H", kepub_path := none }

/-- The organize target of `book_ex` under `settings_ex`. -/
def target_ex : List Str := (get_organize_path settings_ex book_ex).2

/-- Filesystem for the dedup scenario: source and target exist, the
target's hash matches the book's, every operation succeeds. -/
def fs_dedup : FS :=
  { files := fun p => decide (p = book_ex.file_path) || decide (p = target_ex),
    hash_result := fun p => if p = target_ex then some "H" else none,
    unlink_fails := fun _ => false,
    mkdir_fails := fun _ => false,
    move_fails := fun _ _ => false }

/-- Filesystem for the collision scenario: the target exists with a
different hash, the `_1` sibling is free. -/
def fs_collision : FS :=
  { files := fun p => decide (p = book_ex.file_path) || decide (p = target_ex),
    hash_result := fun p => if p = target_ex then some "X" else none,
    unlink_fails := fun _ => false,
    mkdir_fails := fun _ => false,
    move_fails := fun _ _ => false }

/-- Filesystem where every path exists: all 1000 unique-name candidates
are taken. -/
def fs_everything : FS :=
  { files := fun _ => true,
    hash_result := fun p => if p = target_ex then some "X" else none,
    unlink_fails := fun _ => false,
    mkdir_fails := fun _ => false,
    move_fails := fun _ _ => false }

/-- Filesystem for the zombie-recovery scenario: the source is gone, the
expected target exists with the matching hash. -/
def fs_zombie : FS :=
  { files := fun p => decide (p = target_ex),
    hash_result := fun p => if p = target_ex then some "H" else none,
    unlink_fails := fun _ => false,
    mkdir_fails := fun _ => false,
    move_fails := fun _ _ => false }

/-- Filesystem where the source is gone and the expected target exists
with a different hash. -/
def fs_zombie_bad : FS :=
  { files := fun p => decide (p = target_ex),
    hash_result := fun p => if p = target_ex then some "X" else none,
    unlink_fails := fun _ => false,
    mkdir_fails := fun _ => false,
    move_fails := fun _ _ => false }

/-! ## Helper lemmas -/

/-- Membership in an update-by-id map: every row of the result is either
an untouched row of the source or the update of a source row with the
given id. -/
theorem mem_update_map {st : List Task} {f : Task → Task} {id : Nat} {t : Task}
    (ht : t ∈ st.map (fun u => if u.id = id then f u else u)) :
    ∃ u ∈ st, (u.id ≠ id ∧ t = u) ∨ (u.id = id ∧ t = f u) := by
  rcases List.mem_map.1 ht with ⟨u, hu, heq⟩
  refine ⟨u, hu, ?_⟩
  by_cases hid : u.id = id
  · right
    exact ⟨hid, by rw [← heq, if_pos hid]⟩
  · left
    exact ⟨hid, by rw [← heq, if_neg hid]⟩

/-- An update-by-id map whose id matches no row is the identity. -/
theorem update_map_eq_self {st : List Task} {f : Task → Task} {id : Nat}
    (h : ∀ t ∈ st, t.id ≠ id) :
    st.map (fun u => if u.id = id then f u else u) = st := by
  have h1 : st.map (fun u => if u.id = id then f u else u) = st.map (fun u => u) :=
    List.map_congr_left (fun u hu => if_neg (h u hu))
  rw [h1]
  exact List.map_id' st

/-- Predicate `eligible` in the claim's vocabulary. -/
theorem eligible_iff (now : Int) (t : Task) :
    eligible now t = true ↔
      t.status = TaskStatus.pending ∧
        (t.next_retry_at = none ∨ ∃ r, t.next_retry_at = some r ∧ r ≤ now) := by
  cases hn : t.next_retry_at with
  | none => simp [eligible, hn]
  | some r => simp [eligible, hn]

/-- Predicate `is_stale` in the claim's vocabulary. -/
theorem is_stale_iff (now : Int) (t : Task) :
    is_stale now t = true ↔
      t.status = TaskStatus.processing ∧
        ∃ s, t.started_at = some s ∧ s < now - TASK_STALE_SECONDS := by
  cases hn : t.started_at with
  | none => simp [is_stale, hn]
  | some s => simp [is_stale, hn]

/-! ## C8 — template rendering -/

/-- C8: `render` substitutes the placeholders (a missing or null value
substituting as the empty string), then splits the substituted string on
`'/'`, strips each segment, drops empty segments and rejoins as a path;
when every segment is empty the result is the single-segment path `.`.
Template `{author}/{series}/{title}` with author `"A"`, series null,
title `"T"` renders to `A/T`; all-null metadata renders to `.`. -/
theorem C8_render_pipeline :
    (∀ (pattern : Str) (meta : Metadata),
      render pattern meta =
        (render_segments (substitute_all pattern meta)).filter (fun s => s ≠ ['.'])) ∧
    (∀ result : Str,
      render_segments result =
        ((result.splitOn '/').map py_strip_ws).filter (fun s => s ≠ [])) ∧
    (path_str (render template_ast meta_a_t) = "A/T".toList ∧
      render template_ast meta_a_t = ["A".toList, "T".toList]) ∧
    (path_str (render template_ast meta_all_null) = ['.'] ∧
      render template_ast meta_all_null = []) :=
  ⟨fun _ _ => rfl, fun _ => rfl, ⟨by decide, by decide⟩, ⟨by decide, by decide⟩⟩

/-! ## C10 — series_index formatting -/

/-- C10 counterexample: a book whose `series_index` is 0 is supplied
with no `series_index` template value at all (Python truthiness of
`if book.series_index`), not with the zero-padded rendering `"00"`. -/
theorem C10_counterexample :
    book_index0.series_index = some 0 ∧
    meta_get (organize_metadata book_index0) "series_index".toList = none ∧
    format_02d 0 = "00".toList := by decide

/-- C10 (amended): for every book whose `series_index` is present and
nonzero, the organizer supplies the `series_index` template variable as
the zero-padded two-digit rendering of that integer; a `series_index` of
0 is treated as absent. -/
theorem C10_series_index_format (book : Book) (n : Int)
    (h1 : book.series_index = some n) (h2 : n ≠ 0) :
    meta_get (organize_metadata book) "series_index".toList = some (format_02d n) := by
  have hbase : meta_get (organize_metadata book) "series_index".toList =
      (match book.series_index with
       | some m => if m ≠ 0 then some (format_02d m) else none
       | none => none) := rfl
  rw [hbase, h1]
  simp [h2]

/-- C10 witness: a book with `series_index = 5` renders the variable as
`"05"`. -/
theorem C10_witness :
    meta_get (organize_metadata book_index5) "series_index".toList =
      some (format_02d 5) :=
  C10_series_index_format book_index5 5 rfl (by decide)

/-! ## C7 — stale recovery -/

/-- C7 counterexample: recovering a task claimed two hours ago resets it
as the claim describes, but the recorded `error_message` is
`"Task recovered from stale state"`, not `"recovered from stale state"`
as the claim asserts. -/
theorem C7_counterexample :
    (recover_stale_tasks [task_stale] 7200).2 = 1 ∧
    (recover_stale_tasks [task_stale] 7200).1 =
      [{ task_stale with status := TaskStatus.pending, started_at := none,
                         retry_count := task_stale.retry_count + 1,
                         error_message := some "Task recovered from stale state" }] ∧
    ¬ ∃ u ∈ (recover_stale_tasks [task_stale] 7200).1,
        u.error_message = some "recovered from stale state" := by decide

/-- C7 (amended): `recover_stale_tasks` resets exactly the PROCESSING
rows whose `started_at` is older than `now` minus 15 minutes — each
becomes PENDING with `started_at` cleared, `retry_count` incremented and
`error_message` set to `"Task recovered from stale state"` — leaves
every other row unchanged, and returns the number of rows reset. -/
theorem C7_recover_stale_spec (st : QueueState) (now : Int) :
    ((recover_stale_tasks st now).1.length = st.length) ∧
    (∀ (i : Nat) (t : Task), st[i]? = some t →
      ((t.status = TaskStatus.processing ∧
          ∃ s, t.started_at = some s ∧ s < now - TASK_STALE_SECONDS) →
        (recover_stale_tasks st now).1[i]? =
          some { t with status := TaskStatus.pending, started_at := none,
                        retry_count := t.retry_count + 1,
                        error_message := some "Task recovered from stale state" }) ∧
      (¬ (t.status = TaskStatus.processing ∧
            ∃ s, t.started_at = some s ∧ s < now - TASK_STALE_SECONDS) →
        (recover_stale_tasks st now).1[i]? = some t)) ∧
    ((recover_stale_tasks st now).2 =
      (st.filter (fun t => is_stale now t)).length) := by
  refine ⟨List.length_map st _, ?_, rfl⟩
  intro i t ht
  constructor
  · intro hstale
    have hb : is_stale now t = true := (is_stale_iff now t).2 hstale
    show (st.map (fun u => if is_stale now u then apply_recover u else u))[i]? = _
    rw [List.getElem?_map, ht]
    simp [hb, apply_recover]
  · intro hnot
    have hb : is_stale now t = false := by
      cases hcase : is_stale now t
      · rfl
      · exact absurd ((is_stale_iff now t).1 hcase) hnot
    show (st.map (fun u => if is_stale now u then apply_recover u else u))[i]? = _
    rw [List.getElem?_map, ht]
    simp [hb]

/-- C7 witness: at time 7200, the sweep over a stale task and a fresh
PENDING task resets the first row and leaves the second unchanged. -/
theorem C7_recover_stale_witness :
    (recover_stale_tasks [task_stale, task_fresh] 7200).1[0]? =
      some { task_stale with status := TaskStatus.pending, started_at := none,
                             retry_count := task_stale.retry_count + 1,
                             error_message := some "Task recovered from stale state" } ∧
    (recover_stale_tasks [task_stale, task_fresh] 7200).1[1]? = some task_fresh :=
  ⟨((C7_recover_stale_spec [task_stale, task_fresh] 7200).2.1 0 task_stale rfl).1
      ⟨rfl, 0, rfl, by decide⟩,
   ((C7_recover_stale_spec [task_stale, task_fresh] 7200).2.1 1 task_fresh rfl).2
      (fun hc => absurd hc.1 (by decide))⟩

/-! ## C4 — retry semantics -/

/-- C4: `retry_task` increments `retry_count` by one, resets the row to
PENDING, records the error, and — when no explicit delay is supplied —
schedules `next_retry_at = now + 10 * 2 ^ (retry_count - 1)` computed
after the increment (which is `10 * 2 ^ old_count`), so successive
default retries of a fresh task are delayed 10, 20 and 40 seconds;
retrying an unknown id changes no stored task. -/
theorem C4_retry_task_spec (st : QueueState) (id : Nat) (error : String) (now : Int) :
    ((∀ t ∈ st, t.id ≠ id) → retry_task st id error none now = st) ∧
    (∀ t ∈ st, t.id = id →
      ∃ u ∈ retry_task st id error none now,
        u.id = t.id ∧ u.retry_count = t.retry_count + 1 ∧
        u.status = TaskStatus.pending ∧ u.error_message = some error ∧
        u.next_retry_at = some (now + 10 * 2 ^ t.retry_count)) ∧
    (∀ t : Task, t.retry_count = 0 →
      ∀ n1 n2 n3 : Int,
        (apply_retry error none n1 t).next_retry_at = some (n1 + 10) ∧
        (apply_retry error none n2 (apply_retry error none n1 t)).next_retry_at =
          some (n2 + 20) ∧
        (apply_retry error none n3
            (apply_retry error none n2 (apply_retry error none n1 t))).next_retry_at =
          some (n3 + 40)) := by
  refine ⟨fun h => update_map_eq_self h, ?_, ?_⟩
  · intro t ht hid
    refine ⟨apply_retry error none now t, ?_, ?_⟩
    · have : (fun u => if u.id = id then apply_retry error none now u else u) t =
          apply_retry error none now t := if_pos hid
      exact this ▸ List.mem_map_of_mem _ ht
    · simp [apply_retry]
  · intro t h0 n1 n2 n3
    refine ⟨?_, ?_, ?_⟩ <;> simp [apply_retry, h0]

/-- C4 witness: retrying the stored task with id 1 and `retry_count` 1
yields `retry_count` 2, status PENDING, the recorded error and
`next_retry_at = 100 + 20`. -/
theorem C4_retry_task_witness :
    ∃ u ∈ retry_task [task_retried] 1 "E: x" none 100,
      u.id = task_retried.id ∧ u.retry_count = task_retried.retry_count + 1 ∧
      u.status = TaskStatus.pending ∧ u.error_message = some "E: x" ∧
      u.next_retry_at = some (100 + 10 * 2 ^ task_retried.retry_count) :=
  (C4_retry_task_spec [task_retried] 1 "E: x" 100).2.1 task_retried
    (List.mem_singleton.2 rfl) rfl

/-! ## C1 — claim ordering -/

/-- C1 counterexample: with a fresh task (NULL `next_retry_at`, created
first) and an eligible retried task (`next_retry_at = 5`, created
second) in the store at time 10, `fetch_next_task` returns the retried
task — although under the claimed ordering (`next_retry_at` ascending
with nulls FIRST) the fresh task strictly precedes it and should have
been returned. -/
theorem C1_counterexample :
    (fetch_next_task [task_fresh, task_retried] 10).1 =
      some (mark_processing 10 task_retried) ∧
    eligible 10 task_fresh = true ∧
    claim_key_nulls_first task_fresh < claim_key_nulls_first task_retried ∧
    task_fresh.id ≠ task_retried.id := by decide

/-- C1 (amended): `fetch_next_task` returns a task only if it is PENDING
with `next_retry_at` null or at most `now`, and among the eligible tasks
it returns the one minimal under `next_retry_at` ascending with nulls
LAST, tiebroken by `created_at` ascending; the returned task is the
stored row marked PROCESSING with `started_at` set to the claim time. -/
theorem C1_fetch_order_nulls_last (st : QueueState) (now : Int) (t : Task)
    (st2 : QueueState) (h : fetch_next_task st now = (some t, st2)) :
    ∃ u ∈ st,
      u.status = TaskStatus.pending ∧
      (u.next_retry_at = none ∨ ∃ r, u.next_retry_at = some r ∧ r ≤ now) ∧
      (∀ v ∈ st, eligible now v = true → fetch_key u ≤ fetch_key v) ∧
      t = mark_processing now u ∧ t.status = TaskStatus.processing ∧
      t.started_at = some now ∧
      st2 = st.map (fun w => if w.id = u.id then mark_processing now w else w) := by
  unfold fetch_next_task at h
  cases harg : List.argmin fetch_key (st.filter (eligible now)) with
  | none =>
      rw [harg] at h
      exact absurd (congrArg Prod.fst h) (by simp)
  | some u =>
      rw [harg] at h
      have hu : u ∈ List.argmin fetch_key (st.filter (eligible now)) := by
        rw [harg]; rfl
      have hmem := List.argmin_mem hu
      have hst := (List.mem_filter.1 hmem).1
      have helig := (List.mem_filter.1 hmem).2
      have ht : t = mark_processing now u := by
        have := congrArg Prod.fst h
        simpa using this.symm
      refine ⟨u, hst, ((eligible_iff now u).1 helig).1,
        ((eligible_iff now u).1 helig).2, ?_, ht, ?_, ?_, ?_⟩
      · intro v hv hel
        have hvf : v ∈ st.filter (eligible now) := List.mem_filter.2 ⟨hv, hel⟩
        exact not_lt.1 (List.not_lt_of_mem_argmin hvf hu)
      · rw [ht]; rfl
      · rw [ht]; rfl
      · have := congrArg Prod.snd h
        simpa using this.symm

/-- C1 witness: at time 10 the two-task store yields the retried task,
which is PENDING and eligible, minimal under the nulls-last key, and
returned marked PROCESSING. -/
theorem C1_fetch_order_witness :
    ∃ u ∈ [task_fresh, task_retried],
      u.status = TaskStatus.pending ∧
      (u.next_retry_at = none ∨ ∃ r, u.next_retry_at = some r ∧ r ≤ 10) ∧
      (∀ v ∈ [task_fresh, task_retried], eligible 10 v = true →
        fetch_key u ≤ fetch_key v) ∧
      mark_processing 10 task_retried = mark_processing 10 u ∧
      (mark_processing 10 task_retried).status = TaskStatus.processing ∧
      (mark_processing 10 task_retried).started_at = some 10 ∧
      [task_fresh, mark_processing 10 task_retried] =
        [task_fresh, task_retried].map
          (fun w => if w.id = u.id then mark_processing 10 w else w) :=
  C1_fetch_order_nulls_last [task_fresh, task_retried] 10
    (mark_processing 10 task_retried) [task_fresh, mark_processing 10 task_retried]
    (by decide)

/-! ## C2 — retry_count bound -/

/-- C2 counterexample: a reachable operation sequence — enqueue, three
claim/retry rounds each performed while `retry_count < max_retries`
(the worker's policy), a fourth claim, then a stale-recovery sweep —
leaves a stored task with `retry_count = 4 > max_retries = 3`; the
invariant held before the sweep and the sweep broke it. -/
theorem C2_counterexample :
    (∀ t ∈ c2_s7, t.retry_count ≤ t.max_retries) ∧
    (∃ t ∈ c2_s8, t.max_retries < t.retry_count) := by decide

/-- C2 (amended): `retry_count ≤ max_retries` is preserved by enqueue,
claim and complete; retry preserves it only when invoked on a row with
`retry_count < max_retries` (the worker's policy); stale recovery
increments `retry_count` unconditionally and can drive it above
`max_retries`. -/
theorem C2_retry_bound_preservation (st : QueueState) (now : Int)
    (h : ∀ t ∈ st, t.retry_count ≤ t.max_retries) :
    (∀ (id : Nat) (ttype : String), ∀ t ∈ add_task st id ttype now,
        t.retry_count ≤ t.max_retries) ∧
    (∀ t ∈ (fetch_next_task st now).2, t.retry_count ≤ t.max_retries) ∧
    (∀ (id : Nat) (error : Option String) (status : Option TaskStatus),
        ∀ t ∈ complete_task st id error status now, t.retry_count ≤ t.max_retries) ∧
    (∀ (id : Nat) (error : String) (delay : Option Int),
        (∀ u ∈ st, u.id = id → u.retry_count < u.max_retries) →
        ∀ t ∈ retry_task st id error delay now, t.retry_count ≤ t.max_retries) := by
  refine ⟨?_, ?_, ?_, ?_⟩
  · intro id ttype t ht
    rcases List.mem_append.1 ht with hl | hr
    · exact h t hl
    · rw [List.mem_singleton.1 hr]
      exact Nat.zero_le _
  · intro t ht
    unfold fetch_next_task at ht
    cases harg : List.argmin fetch_key (st.filter (eligible now)) with
    | none =>
        rw [harg] at ht
        exact h t ht
    | some u =>
        rw [harg] at ht
        rcases mem_update_map ht with ⟨v, hv, hcase⟩
        rcases hcase with ⟨_, hveq⟩ | ⟨_, hveq⟩
        · rw [hveq]; exact h v hv
        · rw [hveq]; simpa [mark_processing] using h v hv
  · intro id error status t ht
    unfold complete_task at ht
    rcases mem_update_map ht with ⟨v, hv, hcase⟩
    rcases hcase with ⟨_, hveq⟩ | ⟨_, hveq⟩
    · rw [hveq]; exact h v hv
    · rw [hveq]; simpa [apply_complete] using h v hv
  · intro id error delay hpol t ht
    unfold retry_task at ht
    rcases mem_update_map ht with ⟨v, hv, hcase⟩
    rcases hcase with ⟨_, hveq⟩ | ⟨hid, hveq⟩
    · rw [hveq]; exact h v hv
    · have hlt := hpol v hv hid
      rw [hveq]
      simp only [apply_retry]
      omega

/-- C2 witness: the preservation statements instantiated on a singleton
store holding a fresh task. -/
theorem C2_retry_bound_witness :
    (∀ (id : Nat) (ttype : String), ∀ t ∈ add_task [task_fresh] id ttype 0,
        t.retry_count ≤ t.max_retries) ∧
    (∀ t ∈ (fetch_next_task [task_fresh] 0).2, t.retry_count ≤ t.max_retries) ∧
    (∀ (id : Nat) (error : Option String) (status : Option TaskStatus),
        ∀ t ∈ complete_task [task_fresh] id error status 0,
          t.retry_count ≤ t.max_retries) ∧
    (∀ (id : Nat) (error : String) (delay : Option Int),
        (∀ u ∈ [task_fresh], u.id = id → u.retry_count < u.max_retries) →
        ∀ t ∈ retry_task [task_fresh] id error delay 0,
          t.retry_count ≤ t.max_retries) :=
  C2_retry_bound_preservation [task_fresh] 0 (by decide)

/-! ## C3 — worker failure policy -/

/-- Formatted processor errors are never the empty string (they contain
`": "`), so `complete_task` always records them. -/
theorem format_error_ne_empty (e : PyExc) : format_error e ≠ "" := by
  intro hc
  have hlen : (format_error e).length = 0 := by rw [hc]; rfl
  rw [format_error] at hlen
  simp [String.length_append] at hlen
  exact absurd hlen.1.2 (by decide)

/-- C3 counterexample: the recovered task of the C2 trace is claimed
once more (now with `retry_count = 4 > max_retries = 3`) and its
processor fails; the worker dead-letters it even though `retry_count`
does not equal `max_retries`, refuting "DEAD_LETTER exactly when a
failure is observed while retry_count equals max_retries". -/
theorem C3_counterexample :
    (¬ ∃ t ∈ c3_fetch.2, t.status = TaskStatus.dead_letter) ∧
    (∃ t ∈ c3_after, t.status = TaskStatus.dead_letter ∧
        t.retry_count ≠ t.max_retries) := by decide

/-- C3 (amended): on a processor exception the worker formats the error
as `"<kind>: <message>"` and retries the claimed task when
`retry_count < max_retries`, otherwise completes it DEAD_LETTER carrying
that error; the stored row is dead-lettered by the failure exactly when
`retry_count ≥ max_retries` (equality need not hold, since stale
recovery can push `retry_count` past `max_retries`). -/
theorem C3_failure_policy (st : QueueState) (t : Task) (e : PyExc) (now : Int)
    (hmem : t ∈ st) (huniq : ∀ u ∈ st, u.id = t.id → u = t)
    (_hproc : t.status = TaskStatus.processing) :
    (t.retry_count < t.max_retries →
      ∃ u ∈ process_task st t true (Except.error e) now,
        u.id = t.id ∧ u.status = TaskStatus.pending ∧
        u.retry_count = t.retry_count + 1 ∧
        u.error_message = some (e.kind ++ ": " ++ e.msg)) ∧
    (t.max_retries ≤ t.retry_count →
      ∃ u ∈ process_task st t true (Except.error e) now,
        u.id = t.id ∧ u.status = TaskStatus.dead_letter ∧
        u.error_message = some (e.kind ++ ": " ++ e.msg) ∧
        u.completed_at = some now) ∧
    ((∃ u ∈ process_task st t true (Except.error e) now,
        u.id = t.id ∧ u.status = TaskStatus.dead_letter) ↔
      t.max_retries ≤ t.retry_count) := by
  have hmsg : format_error e = e.kind ++ ": " ++ e.msg := rfl
  by_cases hlt : t.retry_count < t.max_retries
  · have hst2 : process_task st t true (Except.error e) now =
        retry_task st t.id (format_error e) none now := by
      simp [process_task, handle_task_failure, hlt]
    refine ⟨?_, ?_, ?_⟩
    · intro _
      refine ⟨apply_retry (format_error e) none now t, ?_, ?_⟩
      · rw [hst2]
        unfold retry_task
        have : (fun u => if u.id = t.id then
            apply_retry (format_error e) none now u else u) t =
            apply_retry (format_error e) none now t := if_pos rfl
        exact this ▸ List.mem_map_of_mem _ hmem
      · simp [apply_retry, hmsg]
    · intro hge
      omega
    · constructor
      · rintro ⟨u, hu, hid, hdl⟩
        rw [hst2] at hu
        unfold retry_task at hu
        rcases mem_update_map hu with ⟨v, hv, hcase⟩
        rcases hcase with ⟨hne, rfl⟩ | ⟨hvid, rfl⟩
        · exact absurd (huniq u hv hid) (fun hvt => hne (hvt ▸ rfl))
        · exact absurd hdl (by simp [apply_retry])
      · intro hge
        omega
  · have hst2 : process_task st t true (Except.error e) now =
        complete_task st t.id (some (format_error e))
          (some TaskStatus.dead_letter) now := by
      simp [process_task, handle_task_failure, hlt]
    have htruthy : error_truthy (some (e.kind ++ ": " ++ e.msg)) = true := by
      simp only [error_truthy, decide_eq_true_eq]
      exact format_error_ne_empty e
    refine ⟨fun hc => absurd hc hlt, ?_, ?_⟩
    · intro _
      refine ⟨apply_complete (some (format_error e))
          (some TaskStatus.dead_letter) now t, ?_, ?_⟩
      · rw [hst2]
        unfold complete_task
        have : (fun u => if u.id = t.id then
            apply_complete (some (format_error e))
              (some TaskStatus.dead_letter) now u else u) t =
            apply_complete (some (format_error e))
              (some TaskStatus.dead_letter) now t := if_pos rfl
        exact this ▸ List.mem_map_of_mem _ hmem
      · simp [apply_complete, htruthy, hmsg]
    · constructor
      · intro _
        omega
      · intro hge
        refine ⟨apply_complete (some (format_error e))
            (some TaskStatus.dead_letter) now t, ?_, rfl, ?_⟩
        · rw [hst2]
          unfold complete_task
          have : (fun u => if u.id = t.id then
              apply_complete (some (format_error e))
                (some TaskStatus.dead_letter) now u else u) t =
              apply_complete (some (format_error e))
                (some TaskStatus.dead_letter) now t := if_pos rfl
          exact this ▸ List.mem_map_of_mem _ hmem
        · simp [apply_complete]

/-- C3 witness: a claimed fresh task (`retry_count = 0 < 3`) whose
processor raises `ValueError("boom")` is rescheduled PENDING with
`retry_count` 1 and error `"ValueError: boom"`. -/
theorem C3_failure_policy_witness :
    ∃ u ∈ process_task [task_claimed] task_claimed true
        (Except.error { kind := "ValueError", msg := "boom" }) 2,
      u.id = task_claimed.id ∧ u.status = TaskStatus.pending ∧
      u.retry_count = task_claimed.retry_count + 1 ∧
      u.error_message = some ("ValueError" ++ ": " ++ "boom") :=
  (C3_failure_policy [task_claimed] task_claimed
      { kind := "ValueError", msg := "boom" } 2
      (List.mem_singleton.2 rfl) (by decide) rfl).1 (by decide)

/-! ## C9 — sanitization idempotence -/

/-- Dropping a leading run twice equals dropping it once. -/
theorem dropWhile_dropWhile (p : Char → Bool) (l : Str) :
    List.dropWhile p (List.dropWhile p l) = List.dropWhile p l := by
  induction l with
  | nil => rfl
  | cons a l ih =>
      cases hpa : p a
      · simp [List.dropWhile_cons, hpa]
      · simp [List.dropWhile_cons, hpa, ih]

/-- If `dropWhile` fixes a concatenation it fixes the left part. -/
theorem dropWhile_append_self {p : Char → Bool} :
    ∀ {u v : Str}, List.dropWhile p (u ++ v) = u ++ v → List.dropWhile p u = u
  | [], _, _ => by simp
  | a :: u', v, h => by
      cases hpa : p a
      · simp [List.dropWhile_cons, hpa]
      · exfalso
        rw [List.cons_append, List.dropWhile_cons, hpa, if_pos rfl] at h
        have h1 := List.Sublist.length_le (List.dropWhile_sublist (l := u' ++ v) p)
        have h2 := congrArg List.length h
        simp only [List.length_cons] at h2
        omega

/-- Stripping both ends is idempotent. -/
theorem py_strip_strip (set : List Char) (s : Str) :
    py_strip set (py_strip set s) = py_strip set s := by
  have main : ∀ (p : Char → Bool) (x : Str),
      (List.dropWhile p ((List.dropWhile p
        ((List.dropWhile p ((List.dropWhile p x).reverse)).reverse)).reverse)).reverse =
      (List.dropWhile p ((List.dropWhile p x).reverse)).reverse := by
    intro p x
    set a := List.dropWhile p x with hA
    set d := List.dropWhile p a.reverse with hD
    have h1 : List.takeWhile p a.reverse ++ List.dropWhile p a.reverse = a.reverse :=
      List.takeWhile_append_dropWhile p a.reverse
    have hdecomp : a = d.reverse ++ (List.takeWhile p a.reverse).reverse := by
      conv_lhs => rw [← List.reverse_reverse a, ← h1]
      rw [List.reverse_append, ← hD]
    have ha : List.dropWhile p a = a := by
      rw [hA]
      exact dropWhile_dropWhile p x
    have ha2 : List.dropWhile p (d.reverse ++ (List.takeWhile p a.reverse).reverse) =
        d.reverse ++ (List.takeWhile p a.reverse).reverse := by
      rw [← hdecomp]
      exact ha
    have step1 : List.dropWhile p d.reverse = d.reverse := dropWhile_append_self ha2
    have step2 : List.dropWhile p d = d := by
      rw [hD]
      exact dropWhile_dropWhile p a.reverse
    rw [step1, List.reverse_reverse, step2]
  have hgoal := main (fun c => set.contains c) s
  unfold py_strip
  exact hgoal

/-- Characters surviving a strip come from the input. -/
theorem mem_of_mem_py_strip {set : List Char} {s : Str} {c : Char}
    (hc : c ∈ py_strip set s) : c ∈ s := by
  unfold py_strip at hc
  rw [List.mem_reverse] at hc
  have h1 := (List.dropWhile_sublist (fun c => set.contains c)).subset hc
  rw [List.mem_reverse] at h1
  exact (List.dropWhile_sublist (fun c => set.contains c)).subset h1

/-- Every character of a replaced string is valid. -/
theorem replace_invalid_valid {s : Str} {c : Char} (hc : c ∈ replace_invalid s) :
    is_invalid_char c = false := by
  rcases List.mem_map.1 hc with ⟨a, _, rfl⟩
  by_cases hia : is_invalid_char a = true
  · simp [hia]
    decide
  · simp only [Bool.not_eq_true] at hia
    simp [hia]

/-- Replacement fixes a string with no invalid characters. -/
theorem replace_invalid_of_valid {s : Str}
    (h : ∀ c ∈ s, is_invalid_char c = false) : replace_invalid s = s := by
  unfold replace_invalid
  have hcongr : s.map (fun c => if is_invalid_char c then '_' else c) =
      s.map (fun c => c) :=
    List.map_congr_left (fun a ha => by simp [h a ha])
  rw [hcongr, List.map_id']

/-- C9 counterexample: on the 201-character input `199 × 'a', ' ', 'b'`
the first sanitization truncates to 200 characters, exposing a trailing
space that the second sanitization strips, so sanitization is not
idempotent. -/
theorem C9_counterexample :
    sanitize_filename c9_long = List.replicate 199 'a' ++ [' '] ∧
    sanitize_filename (sanitize_filename c9_long) = List.replicate 199 'a' ∧
    sanitize_filename (sanitize_filename c9_long) ≠ sanitize_filename c9_long := by
  refine ⟨by decide, by decide, by decide⟩

/-- C9 (amended): sanitization is idempotent on every string whose
replaced-and-stripped form is at most 200 characters — that is, whenever
the first application performs no truncation; truncation can expose a
strippable character at the cut, and a second application then
differs. -/
theorem C9_sanitize_idempotent_no_truncation (s : Str)
    (h : (py_strip dot_strip_set (replace_invalid s)).length ≤ MAX_SEGMENT_LENGTH) :
    sanitize_filename (sanitize_filename s) = sanitize_filename s := by
  have hs1 : sanitize_filename s = py_strip dot_strip_set (replace_invalid s) := by
    unfold sanitize_filename
    rw [if_neg (by omega)]
  have hvalid : ∀ c ∈ py_strip dot_strip_set (replace_invalid s),
      is_invalid_char c = false :=
    fun c hc => replace_invalid_valid (mem_of_mem_py_strip hc)
  have hsub : replace_invalid (py_strip dot_strip_set (replace_invalid s)) =
      py_strip dot_strip_set (replace_invalid s) := replace_invalid_of_valid hvalid
  have hs2 : sanitize_filename (py_strip dot_strip_set (replace_invalid s)) =
      py_strip dot_strip_set (replace_invalid s) := by
    unfold sanitize_filename
    rw [hsub, py_strip_strip dot_strip_set (replace_invalid s), if_neg (by omega)]
  rw [hs1, hs2]

/-- C9 witness: sanitization is idempotent at `"ab.txt"`, which needs no
truncation. -/
theorem C9_sanitize_witness :
    (py_strip dot_strip_set (replace_invalid "ab.txt".toList)).length ≤
      MAX_SEGMENT_LENGTH ∧
    sanitize_filename (sanitize_filename "ab.txt".toList) =
      sanitize_filename "ab.txt".toList :=
  ⟨by decide, C9_sanitize_idempotent_no_truncation "ab.txt".toList (by decide)⟩

/-! ## Organizer lemmas -/

/-- Running `findSome?` over `range' s len` yields the value at the first index
that produces one. -/
theorem findSome?_range'_first {α : Type} (f : Nat → Option α) (a : α) :
    ∀ (j len s : Nat), j < len → (∀ i, i < j → f (s + i) = none) →
      f (s + j) = some a → (List.range' s len).findSome? f = some a := by
  intro j
  induction j with
  | zero =>
      intro len s hlt _ hsome
      cases len with
      | zero => omega
      | succ len' =>
          rw [List.range'_succ, List.findSome?_cons]
          rw [Nat.add_zero] at hsome
          rw [hsome]
  | succ j' ih =>
      intro len s hlt hnone hsome
      cases len with
      | zero => omega
      | succ len' =>
          rw [List.range'_succ, List.findSome?_cons]
          have h0 : f s = none := by
            have := hnone 0 (Nat.succ_pos j')
            rwa [Nat.add_zero] at this
          rw [h0]
          apply ih len' (s + 1) (by omega)
          · intro i hi
            have := hnone (i + 1) (by omega)
            rwa [show s + (i + 1) = s + 1 + i by omega] at this
          · rwa [show s + 1 + j' = s + (j' + 1) by omega]

/-- When the `n`-th candidate (1-based) is the first that does not
exist, `_generate_unique_path` returns it. -/
theorem generate_unique_path_first_free (fs : FS) (p : List Str) (n : Nat)
    (h1 : 1 ≤ n) (h2 : n ≤ 1000)
    (hfree : fs.files (unique_candidate p n) = false)
    (hprev : ∀ m, 1 ≤ m → m < n → fs.files (unique_candidate p m) = true) :
    generate_unique_path fs p = Except.ok (unique_candidate p n) := by
  unfold generate_unique_path
  have hfind : (List.range 1000).findSome?
      (fun i =>
        let c := unique_candidate p (i + 1)
        if fs.files c then none else some c) = some (unique_candidate p n) := by
    rw [List.range_eq_range']
    apply findSome?_range'_first _ _ (n - 1) 1000 0 (by omega)
    · intro i hi
      have := hprev (i + 1) (by omega) (by omega)
      simp only [Nat.zero_add]
      simp [this]
    · simp only [Nat.zero_add]
      rw [show n - 1 + 1 = n by omega]
      simp [hfree]
  rw [hfind]

/-- When all 1000 candidates exist, `_generate_unique_path` raises. -/
theorem generate_unique_path_exhausted (fs : FS) (p : List Str)
    (hall : ∀ m, 1 ≤ m → m ≤ 1000 → fs.files (unique_candidate p m) = true) :
    generate_unique_path fs p = Except.error "Could not generate unique path" := by
  unfold generate_unique_path
  have hfind : (List.range 1000).findSome?
      (fun i =>
        let c := unique_candidate p (i + 1)
        if fs.files c then none else some c) = none := by
    rw [List.findSome?_eq_none_iff]
    intro i hi
    have hi1000 : i < 1000 := List.mem_range.1 hi
    have := hall (i + 1) (by omega) (by omega)
    simp [this]
  rw [hfind]

/-- The collision block resolves to dedup when the target hash matches
and the delete succeeds. -/
theorem resolve_collision_dedup (fs : FS) (book : Book) (orig target : List Str)
    (hex : fs.files target = true)
    (hhash : fs.hash_result target = some book.file_hash)
    (hunl : fs.unlink_fails orig = false) :
    resolve_collision fs book orig target = Except.ok CollisionOutcome.dedup := by
  unfold resolve_collision
  rw [hex, hhash]
  simp [hunl]

/-- The collision block falls through to the unique-sibling generator on
hash error, hash mismatch, or a failed delete. -/
theorem resolve_collision_fallback (fs : FS) (book : Book) (orig target : List Str)
    (hex : fs.files target = true)
    (hfall : fs.hash_result target = none ∨
      (∃ hsh, fs.hash_result target = some hsh ∧ hsh ≠ book.file_hash) ∨
      fs.unlink_fails orig = true) :
    resolve_collision fs book orig target =
      (generate_unique_path fs target).map CollisionOutcome.rename := by
  unfold resolve_collision
  rw [hex]
  rcases hfall with hnone | ⟨hsh, hsome, hne⟩ | hunl
  · rw [hnone]
    simp
  · rw [hsome]
    simp [hne]
  · cases hcase : fs.hash_result target with
    | none => simp
    | some hsh =>
        by_cases heq : hsh = book.file_hash
        · simp [heq, hunl]
        · simp [heq]

/-- Equation for `organize_book`, unfolded past the enabled and already-placed
checks. -/
theorem organize_book_eq (settings : Settings) (fs : FS) (book : Book)
    (henabled : settings.ORGANIZE_LIBRARY = true)
    (hne : (get_organize_path settings book).2 ≠ (get_organize_path settings book).1) :
    organize_book settings fs book =
      (resolve_collision fs book (get_organize_path settings book).1
          (get_organize_path settings book).2).bind
        (fun outcome =>
          match outcome with
          | CollisionOutcome.dedup =>
              Except.ok (some (get_organize_path settings book).2, book,
                fs.unlink (get_organize_path settings book).1)
          | CollisionOutcome.rename target =>
              if fs.mkdir_fails target.dropLast then
                Except.error "Failed to create directory"
              else if fs.move_fails (get_organize_path settings book).1 target then
                Except.error "Failed to move book"
              else
                (move_kepub (fs.move (get_organize_path settings book).1 target)
                    book target.dropLast).bind
                  (fun bookfs => Except.ok (some target, bookfs.1, bookfs.2))) := by
  simp only [organize_book, henabled, Bool.not_true, Bool.false_eq_true, if_false]
  rw [if_neg hne]
  rfl

/-! ## C5 — organize collision policy -/

/-- C5: when the computed target differs from the current path and
already exists: if hashing the target succeeds with the book's hash and
deleting the source succeeds, `organize_book` deletes the source and
returns the target without moving anything; otherwise (hash mismatch,
hash error, or failed delete falling through to rename) it renames to
the first non-existent `_N` sibling for ascending `N` in `[1, 1000]`
(the claim presumes directory creation and the move succeed; their
failures propagate as the same `OSError` chain shown), and raises after
1000 failed attempts. -/
theorem C5_organize_collision_policy (settings : Settings) (fs : FS) (book : Book)
    (henabled : settings.ORGANIZE_LIBRARY = true)
    (hne : (get_organize_path settings book).2 ≠ (get_organize_path settings book).1)
    (hex : fs.files (get_organize_path settings book).2 = true) :
    (fs.hash_result (get_organize_path settings book).2 = some book.file_hash →
      fs.unlink_fails (get_organize_path settings book).1 = false →
      organize_book settings fs book =
        Except.ok (some (get_organize_path settings book).2, book,
          fs.unlink (get_organize_path settings book).1)) ∧
    ((fs.hash_result (get_organize_path settings book).2 = none ∨
      (∃ hsh, fs.hash_result (get_organize_path settings book).2 = some hsh ∧
        hsh ≠ book.file_hash) ∨
      fs.unlink_fails (get_organize_path settings book).1 = true) →
      (∀ n : Nat, 1 ≤ n → n ≤ 1000 →
        fs.files (unique_candidate (get_organize_path settings book).2 n) = false →
        (∀ m, 1 ≤ m → m < n →
          fs.files (unique_candidate (get_organize_path settings book).2 m) = true) →
        organize_book settings fs book =
          (if fs.mkdir_fails
              (unique_candidate (get_organize_path settings book).2 n).dropLast then
            Except.error "Failed to create directory"
          else if fs.move_fails (get_organize_path settings book).1
              (unique_candidate (get_organize_path settings book).2 n) then
            Except.error "Failed to move book"
          else
            (move_kepub
                (fs.move (get_organize_path settings book).1
                  (unique_candidate (get_organize_path settings book).2 n))
                book
                (unique_candidate (get_organize_path settings book).2 n).dropLast).bind
              (fun bookfs =>
                Except.ok (some (unique_candidate (get_organize_path settings book).2 n),
                  bookfs.1, bookfs.2)))) ∧
      (∀ n : Nat, 1 ≤ n → n ≤ 1000 →
        fs.files (unique_candidate (get_organize_path settings book).2 n) = false →
        (∀ m, 1 ≤ m → m < n →
          fs.files (unique_candidate (get_organize_path settings book).2 m) = true) →
        book.kepub_path = none →
        fs.mkdir_fails
          (unique_candidate (get_organize_path settings book).2 n).dropLast = false →
        fs.move_fails (get_organize_path settings book).1
          (unique_candidate (get_organize_path settings book).2 n) = false →
        organize_book settings fs book =
          Except.ok (some (unique_candidate (get_organize_path settings book).2 n),
            book,
            fs.move (get_organize_path settings book).1
              (unique_candidate (get_organize_path settings book).2 n))) ∧
      ((∀ m, 1 ≤ m → m ≤ 1000 →
          fs.files (unique_candidate (get_organize_path settings book).2 m) = true) →
        organize_book settings fs book =
          Except.error "Could not generate unique path")) := by
  refine ⟨?_, ?_⟩
  · intro hhash hunl
    rw [organize_book_eq settings fs book henabled hne,
      resolve_collision_dedup fs book _ _ hex hhash hunl]
    rfl
  · intro hfall
    have hres := resolve_collision_fallback fs book
      (get_organize_path settings book).1 (get_organize_path settings book).2 hex hfall
    refine ⟨?_, ?_, ?_⟩
    · intro n h1 h2 hfree hprev
      rw [organize_book_eq settings fs book henabled hne, hres,
        generate_unique_path_first_free fs _ n h1 h2 hfree hprev]
      rfl
    · intro n h1 h2 hfree hprev hkep hm hv
      rw [organize_book_eq settings fs book henabled hne, hres,
        generate_unique_path_first_free fs _ n h1 h2 hfree hprev]
      simp [move_kepub, hkep, hm, hv, Except.map, Except.bind]
    · intro hall
      rw [organize_book_eq settings fs book henabled hne, hres,
        generate_unique_path_exhausted fs _ hall]
      rfl

/-- C5 witness: at the concrete book and settings — dedup when the
target carries the same hash, rename to the `_1` sibling when it does
not, and the exhaustion error when every candidate exists. -/
theorem C5_organize_collision_witness :
    organize_book settings_ex fs_dedup book_ex =
      Except.ok (some (get_organize_path settings_ex book_ex).2, book_ex,
        FS.unlink fs_dedup (get_organize_path settings_ex book_ex).1) ∧
    organize_book settings_ex fs_collision book_ex =
      Except.ok (some (unique_candidate (get_organize_path settings_ex book_ex).2 1),
        book_ex,
        FS.move fs_collision (get_organize_path settings_ex book_ex).1
          (unique_candidate (get_organize_path settings_ex book_ex).2 1)) ∧
    organize_book settings_ex fs_everything book_ex =
      Except.error "Could not generate unique path" :=
  ⟨(C5_organize_collision_policy settings_ex fs_dedup book_ex rfl (by decide)
      (by decide)).1 (by decide) rfl,
   (((C5_organize_collision_policy settings_ex fs_collision book_ex rfl (by decide)
      (by decide)).2 (Or.inr (Or.inl ⟨"X", by decide, by decide⟩))).2.1 1
      (by omega) (by omega) (by decide)
      (fun m hm1 hm2 => absurd (Nat.lt_of_lt_of_le hm2 hm1) (Nat.lt_irrefl m))
      rfl rfl rfl),
   ((C5_organize_collision_policy settings_ex fs_everything book_ex rfl (by decide)
      rfl).2 (Or.inr (Or.inl ⟨"X", by decide, by decide⟩))).2.2
      (fun _ _ _ => rfl)⟩

/-! ## C6 — zombie recovery -/

/-- C6: for an ORGANIZE job whose book's current path does not exist on
disk, the stage commits `file_path = expected_path` and finishes without
touching the filesystem iff the expected target exists and its content
hash equals `book.file_hash`; in every other case (target missing, hash
error, or hash mismatch) it raises `FileNotFoundError` and returns no
updated book store. -/
theorem C6_zombie_recovery (settings : Settings) (fs : FS) (store : List Book)
    (bid : Nat) (book : Book)
    (henabled : settings.ORGANIZE_LIBRARY = true)
    (hfind : store.find? (fun b => b.id == bid) = some book)
    (hmiss : fs.files (get_organize_path settings book).1 = false) :
    (fs.files (get_organize_path settings book).2 = true →
      fs.hash_result (get_organize_path settings book).2 = some book.file_hash →
      process_job settings fs store (some bid) =
        Except.ok (fs, store.map (fun b =>
          if b.id = bid then { b with file_path := (get_organize_path settings book).2 }
          else b))) ∧
    ((fs.files (get_organize_path settings book).2 = false ∨
      fs.hash_result (get_organize_path settings book).2 = none ∨
      (∃ hsh, fs.hash_result (get_organize_path settings book).2 = some hsh ∧
        hsh ≠ book.file_hash)) →
      process_job settings fs store (some bid) =
        Except.error (JobError.file_not_found
          (fnf_msg (get_organize_path settings book).1))) := by
  constructor
  · intro hex hhash
    simp [process_job, henabled, hfind, hmiss, hex, hhash]
  · intro hbad
    rcases hbad with hnoex | hnone | ⟨hsh, hsome, hneq⟩
    · simp [process_job, henabled, hfind, hmiss, hnoex]
    · simp [process_job, henabled, hfind, hmiss, hnone]
    · by_cases hex2 : fs.files (get_organize_path settings book).2 = true
      · simp [process_job, henabled, hfind, hmiss, hex2, hsome, hneq]
      · simp only [Bool.not_eq_true] at hex2
        simp [process_job, henabled, hfind, hmiss, hex2]

/-- C6 witness: at the concrete book whose source is missing — recovery
commits the expected path when its hash matches, and raises
`FileNotFoundError` when it does not. -/
theorem C6_zombie_recovery_witness :
    process_job settings_ex fs_zombie [book_ex] (some 1) =
      Except.ok (fs_zombie, [book_ex].map (fun b =>
        if b.id = 1 then { b with file_path := (get_organize_path settings_ex book_ex).2 }
        else b)) ∧
    process_job settings_ex fs_zombie_bad [book_ex] (some 1) =
      Except.error (JobError.file_not_found
        (fnf_msg (get_organize_path settings_ex book_ex).1)) :=
  ⟨(C6_zombie_recovery settings_ex fs_zombie [book_ex] 1 book_ex rfl (by decide)
      (by decide)).1 (by decide) (by decide),
   (C6_zombie_recovery settings_ex fs_zombie_bad [book_ex] 1 book_ex rfl (by decide)
      (by decide)).2 (Or.inr (Or.inr ⟨"X", by decide, by decide⟩))⟩

end Kobold
